import Mathlib

/-!
Shallow embedding of the `polymorphic_collections` library (Robert Engeln,
2012) and verification of a set of behavioural claims about it.

The library offers four type-erased facade types — `enumerator<T>`,
`accumulator<T>`, `aggregator<K,T>`, `accessor<K,T>` — each holding a
polymorphic handle to an adapter over a concrete source.  The embedding
models each adapter's state as the data it manipulates (cursor positions
become list suffixes or numeric indices, wrapped collections become lists or
association lists), C++ exceptions become an explicit error type, and the
optional locking policy becomes an explicit lock-state field.  Mutable state
is threaded explicitly: an operation on state `σ` returns its result
together with the state after the call, so a C++ `throw` that happens before
a write leaves the state component unchanged, exactly as in the source.

The file is organised as definitions first (the embedding), then theorems
(the claims).
-/

namespace PolyColl

/-- The C++ exceptions thrown by the library, with the standard-library class
recorded by the constructor and the `what()` message as payload.
`overflowError` embeds `std::overflow_error` (a `std::runtime_error`);
`outOfRange` embeds `std::out_of_range` (a `std::logic_error`). -/
inductive CppError where
  | overflowError (msg : String)
  | outOfRange (msg : String)
  deriving DecidableEq, Repr

/-- Predicate for membership in the `std::logic_error` branch of the standard
exception hierarchy: `std::out_of_range` belongs to it, `std::overflow_error`
does not (it derives from `std::runtime_error`). -/
def CppError.isLogicErrorClass : CppError → Bool
  | .overflowError _ => false
  | .outOfRange _ => true

/-- Predicate for two exceptions being of the same class (the same C++
exception type), ignoring the `what()` message. -/
def CppError.sameClass : CppError → CppError → Bool
  | .overflowError _, .overflowError _ => true
  | .outOfRange _, .outOfRange _ => true
  | _, _ => false

/-- The `what()` message carried by the exception. -/
def CppError.msg : CppError → String
  | .overflowError m => m
  | .outOfRange m => m

/-- Test whether an operation returned normally (no exception escaped). -/
def isOk : Except CppError Unit → Bool
  | .ok _ => true
  | .error _ => false

/-!
## Enumerator: `iterator_enumerator_adapter` and the `enumerator<T>` facade

Source: `src/polymorphic_collections/detail/enumerator.hpp` (adapter) and
`src/polymorphic_collections/enumerator.hpp` (facade).  The adapter holds a
cursor pair `(m_begin, m_end)` over a half-open range; `next()` returns
`boost::none` once `m_begin == m_end`, otherwise dereferences and advances.
The state is modelled as the list of elements in `[m_begin, m_end)`.
-/

/-- State of `iterator_enumerator_adapter<T>`: the elements remaining in the
half-open range `[m_begin, m_end)`. -/
structure IterEnumAdapter (α : Type) where
  remaining : List α
  deriving DecidableEq, Repr

/-- Embedding of `iterator_enumerator_adapter::next()`:
`if (m_begin != m_end) { T cur = m_begin++; return *cur; } else return boost::none;` -/
def IterEnumAdapter.next : IterEnumAdapter α → Option α × IterEnumAdapter α
  | ⟨[]⟩ => (none, ⟨[]⟩)
  | ⟨x :: xs⟩ => (some x, ⟨xs⟩)

/-- State of the `enumerator<T>` facade under the default `no_lock` policy
(for which `lock()` returns `true` and `unlock()` is a no-op): a
possibly-null pointer `m_adapter` to the active adapter. -/
structure EnumFacade (α : Type) where
  adapter : Option (IterEnumAdapter α)
  deriving DecidableEq, Repr

/-- Embedding of `enumerator::next()` under the default `no_lock` policy:
`if (!m_adapter) return boost::none; else if (lock()) { value = m_adapter->next(); unlock(); return value; } else return boost::none;`
where `no_lock::lock()` always returns true. -/
def EnumFacade.next (f : EnumFacade α) : Option α × EnumFacade α :=
  match f.adapter with
  | none => (none, f)
  | some a =>
      let (v, a1) := a.next
      (v, ⟨some a1⟩)

/-- Outputs of `n` successive `next()` calls on the facade. -/
def EnumFacade.nextTrace (n : Nat) (f : EnumFacade α) : List (Option α) :=
  match n with
  | 0 => []
  | n + 1 =>
      let (v, f1) := f.next
      v :: EnumFacade.nextTrace n f1

/-- Facade wrapping a concrete source sequence, as `make_enumerator` builds
one from an iterator range over that sequence. -/
def EnumFacade.ofList (xs : List α) : EnumFacade α := ⟨some ⟨xs⟩⟩

/-!
## Accumulator: adapters and the `accumulator<T>` facade

Source: `src/polymorphic_collections/detail/accumulator.hpp` (adapters) and
the `accumulator<T>` facade in the `src/unnamed` header with guard
`POLYMORPHIC_COLLECTIONS_ACCUMULATOR_HPP` (part_004).
-/

/-- State of `iterator_accumulator_adapter<I>`: `buf` is the contents of the
underlying range that `[m_begin0, m_end)` spans, `pos` is `m_begin - m_begin0`,
the number of slots already written. -/
structure IterAccumAdapter (α : Type) where
  buf : List α
  pos : Nat
  deriving DecidableEq, Repr

/-- Embedding of `iterator_accumulator_adapter::add(value_type&&)`:
`if (m_begin == m_end) throw std::overflow_error("iterator_accumulator_adapter::add()"); *m_begin = std::move(value); ++m_begin;`
The throw happens before any write, so on failure the buffer is untouched. -/
def IterAccumAdapter.add (a : IterAccumAdapter α) (v : α) :
    Except CppError Unit × IterAccumAdapter α :=
  if a.pos = a.buf.length then
    (.error (.overflowError "iterator_accumulator_adapter::add()"), a)
  else
    (.ok (), ⟨a.buf.set a.pos v, a.pos + 1⟩)

/-- State of `push_back_accumulator_adapter<C>`: the contents of the wrapped
growable collection (held by reference in the source). -/
structure PushBackAccumAdapter (α : Type) where
  collection : List α
  deriving DecidableEq, Repr

/-- Embedding of `push_back_accumulator_adapter::add(value_type&&)`:
`m_collection.push_back(std::move(value));` — always succeeds. -/
def PushBackAccumAdapter.add (a : PushBackAccumAdapter α) (v : α) :
    Except CppError Unit × PushBackAccumAdapter α :=
  (.ok (), ⟨a.collection ++ [v]⟩)

/-- State of the `accumulator<T>` facade under the default `no_lock` policy:
a possibly-null pointer to the active adapter, generic over the adapter's
state type `σ` (the source dispatches virtually through
`accumulator_adapter_interface`, embedded here as the `step` argument of the
operations). -/
structure AccumFacade (σ : Type) where
  adapter : Option σ
  deriving DecidableEq, Repr

/-- Embedding of `accumulator::add(T&&)` (part_004 lines 143-155) under the
default `no_lock` policy, whose `lock()` always returns true:
`if (lock()) { if (!m_adapter) throw std::overflow_error("accumulator::add()"); m_adapter->add(std::move(value)); unlock(); } return *this;`
A throw from the adapter propagates to the caller. -/
def accumulatorAdd (step : σ → α → Except CppError Unit × σ)
    (f : AccumFacade σ) (v : α) : Except CppError Unit × AccumFacade σ :=
  match f.adapter with
  | none => (.error (.overflowError "accumulator::add()"), f)
  | some a =>
      let (r, a1) := step a v
      (r, ⟨some a1⟩)

/-- Sequence of `accumulator::add` calls feeding the values one by one,
recording whether every call returned normally. -/
def accumulatorAddSeq (step : σ → α → Except CppError Unit × σ)
    (f : AccumFacade σ) (vs : List α) : Bool × AccumFacade σ :=
  match vs with
  | [] => (true, f)
  | v :: rest =>
      let (r, f1) := accumulatorAdd step f v
      let (b, f2) := accumulatorAddSeq step f1 rest
      (isOk r && b, f2)

/-!
## Aggregator: `insert_aggregator_adapter` and the `aggregator<K,T>` facade

Source: `src/polymorphic_collections/aggregator.hpp` (facade and, in the same
translation unit, the detail header with the adapters).
-/

/-- State of `insert_aggregator_adapter<T>` over a map-like collection: the
entries of the wrapped collection. -/
structure InsertAggAdapter (κ α : Type) where
  collection : List (κ × α)
  deriving DecidableEq, Repr

/-- Embedding of `insert_aggregator_adapter::add(key_type&&, value_type&&)`:
`m_collection.insert(pair_type(std::move(key), std::move(value)));` —
`std::map::insert` is a no-op when an entry with the key already exists. -/
def InsertAggAdapter.add [DecidableEq κ] (a : InsertAggAdapter κ α)
    (k : κ) (v : α) : Except CppError Unit × InsertAggAdapter κ α :=
  if a.collection.any (fun p => decide (p.1 = k)) then
    (.ok (), a)
  else
    (.ok (), ⟨a.collection ++ [(k, v)]⟩)

/-- Embedding of `aggregator::add(K&&, T&&)` (aggregator.hpp lines 196-216)
under the default `no_lock` policy: the body throws
`std::overflow_error("aggregator::add()")` when unattached and otherwise
forwards to the adapter; the `catch (...) { unlock(); throw; }` wrapper has
no observable effect beyond the lock, which `no_lock` makes a no-op. -/
def aggregatorAdd [DecidableEq κ]
    (step : σ → κ → α → Except CppError Unit × σ)
    (f : AccumFacade σ) (k : κ) (v : α) : Except CppError Unit × AccumFacade σ :=
  match f.adapter with
  | none => (.error (.overflowError "aggregator::add()"), f)
  | some a =>
      let (r, a1) := step a k v
      (r, ⟨some a1⟩)

/-!
## Locking policies and the lock-sensitive operation paths

Source: the `policy.hpp` header (part_003): `no_lock::lock()` returns true
and does nothing; `atomic::lock()` locks a `boost::mutex` and returns true;
`atomic::unlock()` unlocks it.  For the single-threaded embedding the mutex
is one Boolean, `held`.  The operations below embed the facade bodies with
an `atomic`-style policy attached, returning the lock state at the moment
control returns to the caller — normally or by exception.
-/

/-- State of the blocking `atomic` lock policy: whether the mutex is held. -/
structure LockState where
  held : Bool
  deriving DecidableEq, Repr

/-- Embedding of `atomic::lock()`: `m_mutex.lock(); return true;` (in the
single-threaded embedding acquisition always succeeds). -/
def LockState.lockAcquire (_ : LockState) : Bool × LockState := (true, ⟨true⟩)

/-- Embedding of `atomic::unlock()`: `m_mutex.unlock();` -/
def LockState.unlock (_ : LockState) : LockState := ⟨false⟩

/-- State of an accumulator or aggregator facade with an `atomic` locking
policy attached: the adapter pointer plus the policy's mutex state. -/
structure LockedFacade (σ : Type) where
  adapter : Option σ
  lk : LockState
  deriving DecidableEq, Repr

/-- Embedding of `accumulator::add(T&&)` (part_004 lines 143-155) with the
`atomic` policy.  The body is
`if (lock()) { if (!m_adapter) throw std::overflow_error("accumulator::add()"); m_adapter->add(std::move(value)); unlock(); }`
— there is no try/catch, so on either throw (unattached facade, or an
exception from the forwarded adapter call) control leaves the function with
the mutex still locked.  The returned `LockState` is the lock state at the
moment control returns to the caller. -/
def accumulatorAddLocked (step : σ → α → Except CppError Unit × σ)
    (f : LockedFacade σ) (v : α) : Except CppError Unit × LockedFacade σ :=
  let (acq, lk1) := f.lk.lockAcquire
  if acq then
    match f.adapter with
    | none => (.error (.overflowError "accumulator::add()"), ⟨f.adapter, lk1⟩)
    | some a =>
        match step a v with
        | (.error e, a1) => (.error e, ⟨some a1, lk1⟩)
        | (.ok _, a1) => (.ok (), ⟨some a1, lk1.unlock⟩)
  else
    (.ok (), f)

/-- Embedding of `aggregator::add(K&&, T&&)` (aggregator.hpp lines 196-216)
with the `atomic` policy.  Unlike the accumulator, the body wraps the work in
`try { ... } catch (...) { unlock(); throw; }` and calls `unlock()` after it,
so the mutex is released on every path before control returns. -/
def aggregatorAddLocked (step : σ → κ → α → Except CppError Unit × σ)
    (f : LockedFacade σ) (k : κ) (v : α) : Except CppError Unit × LockedFacade σ :=
  let (acq, lk1) := f.lk.lockAcquire
  if acq then
    match f.adapter with
    | none => (.error (.overflowError "aggregator::add()"), ⟨f.adapter, lk1.unlock⟩)
    | some a =>
        match step a k v with
        | (.error e, a1) => (.error e, ⟨some a1, lk1.unlock⟩)
        | (.ok _, a1) => (.ok (), ⟨some a1, lk1.unlock⟩)
  else
    (.ok (), f)

/-!
## Facade moves (enumerator lineage, `src/polymorphic_collections/enumerator.hpp`)

The facade stores the adapter either inline (the handle pointer equals the
address of `m_storage`) or on the heap.  Moving checks
`reinterpret_cast<char*>(rhs.m_adapter) == rhs.m_storage`: a null pointer
never equals the storage address, so the inline branch is taken exactly when
the source is attached and stored inline.  In the inline branch the handle
is relocated through `move(m_storage)`, which move-constructs the proxy and
its adapter (moving `m_begin`/`m_end` preserves the cursor value) into the
destination's storage; otherwise the destination takes the heap pointer.  In
both branches `rhs.m_adapter = nullptr` afterwards.
-/

/-- State of the `enumerator<T>` facade with the storage mode made explicit:
`isInline` records whether `m_adapter` points into the facade's own
`m_storage` buffer (meaningful only when `adapter` is present; a null handle
takes the pointer-comparison branch for heap mode). -/
structure EnumFacadeM (α : Type) where
  adapter : Option (IterEnumAdapter α)
  isInline : Bool
  deriving DecidableEq, Repr

/-- Embedding of `enumerator::next()` on the mode-carrying facade (default
`no_lock` policy): identical to `EnumFacade.next`; the storage mode does not
change. -/
def EnumFacadeM.next (f : EnumFacadeM α) : Option α × EnumFacadeM α :=
  match f.adapter with
  | none => (none, f)
  | some a =>
      let (v, a1) := a.next
      (v, ⟨some a1, f.isInline⟩)

/-- Outputs of `n` successive `next()` calls. -/
def EnumFacadeM.nextTrace (n : Nat) (f : EnumFacadeM α) : List (Option α) :=
  match n with
  | 0 => []
  | n + 1 =>
      let (v, f1) := f.next
      v :: EnumFacadeM.nextTrace n f1

/-- Embedding of `enumerator(enumerator&&)` (lines 66-78); the result is
`(the new facade, the source after the move)`:
`if ((char*)rhs.m_adapter == rhs.m_storage) m_adapter = rhs.m_adapter->move(m_storage); else m_adapter = rhs.m_adapter; rhs.m_adapter = nullptr;` -/
def enumeratorMoveCtor (rhs : EnumFacadeM α) : EnumFacadeM α × EnumFacadeM α :=
  if rhs.adapter.isSome && rhs.isInline then
    (⟨rhs.adapter, true⟩, ⟨none, rhs.isInline⟩)
  else
    (⟨rhs.adapter, false⟩, ⟨none, rhs.isInline⟩)

/-- Embedding of `enumerator::operator=(enumerator&&)` (lines 92-107): first
`dispose()` destroys any handle this facade already owns (after which its
old adapter state is gone), then the same transfer as the move constructor.
The result is `(the assigned-to facade, the source after)`. -/
def enumeratorMoveAssign (dst rhs : EnumFacadeM α) :
    EnumFacadeM α × EnumFacadeM α :=
  let _ := dst.adapter   -- dispose(): the old handle, destroyed before the transfer
  if rhs.adapter.isSome && rhs.isInline then
    (⟨rhs.adapter, true⟩, ⟨none, rhs.isInline⟩)
  else
    (⟨rhs.adapter, false⟩, ⟨none, rhs.isInline⟩)

/-!
## Handle lifetime during move-assignment, across the four facades

Claim C7 is about which handles get destroyed during move-assignment.  Here
a facade is reduced to the identity of the handle it owns (if any) plus its
storage mode, and each facade's `operator=(facade&&)` is embedded as a map
returning the two facades afterwards together with the list of handles whose
destruction the operation triggered.  Relocation (the inline branch) is
modelled as preserving the handle's identity.  `enumerator` (enumerator.hpp
lines 92-107), `accumulator` (part_004 lines 86-101) and `aggregator`
(aggregator.hpp lines 84-99) all call `dispose()` first, destroying the
handle the assigned-to facade already owns; `accessor::operator=(accessor&&)`
(part_004 lines 305-318) contains no `dispose()` call.
-/

/-- Handle-lifetime view of a facade: the id of the owned handle, if any,
and the storage mode. -/
structure FacadeH where
  handle : Option Nat
  isInline : Bool
  deriving DecidableEq, Repr

/-- Embedding of `enumerator::operator=(enumerator&&)` in the
handle-lifetime view: `dispose()` destroys the currently owned handle, then
the transfer.  Result: `(dst after, rhs after, handles destroyed)`. -/
def enumeratorMoveAssignH (dst rhs : FacadeH) : FacadeH × FacadeH × List Nat :=
  let destroyed := match dst.handle with
    | some h => [h]
    | none => []
  if rhs.handle.isSome && rhs.isInline then
    (⟨rhs.handle, true⟩, ⟨none, rhs.isInline⟩, destroyed)
  else
    (⟨rhs.handle, false⟩, ⟨none, rhs.isInline⟩, destroyed)

/-- Embedding of `accumulator::operator=(accumulator&&)` (part_004 lines
86-101) in the handle-lifetime view: same shape as the enumerator's,
`dispose()` first. -/
def accumulatorMoveAssignH (dst rhs : FacadeH) : FacadeH × FacadeH × List Nat :=
  let destroyed := match dst.handle with
    | some h => [h]
    | none => []
  if rhs.handle.isSome && rhs.isInline then
    (⟨rhs.handle, true⟩, ⟨none, rhs.isInline⟩, destroyed)
  else
    (⟨rhs.handle, false⟩, ⟨none, rhs.isInline⟩, destroyed)

/-- Embedding of `aggregator::operator=(aggregator&&)` (aggregator.hpp lines
84-99) in the handle-lifetime view: same shape, `dispose()` first. -/
def aggregatorMoveAssignH (dst rhs : FacadeH) : FacadeH × FacadeH × List Nat :=
  let destroyed := match dst.handle with
    | some h => [h]
    | none => []
  if rhs.handle.isSome && rhs.isInline then
    (⟨rhs.handle, true⟩, ⟨none, rhs.isInline⟩, destroyed)
  else
    (⟨rhs.handle, false⟩, ⟨none, rhs.isInline⟩, destroyed)

/-- Embedding of `accessor::operator=(accessor&&)` (part_004 lines 305-318)
in the handle-lifetime view.  Unlike the other three facades, this operator
contains no `dispose()` call: the handle the assigned-to facade already owns
is overwritten without being destroyed, so the destroyed-handles list is
empty on every path. -/
def accessorMoveAssignH (dst rhs : FacadeH) : FacadeH × FacadeH × List Nat :=
  let _ := dst.handle   -- the old handle: simply overwritten, never destroyed
  if rhs.handle.isSome && rhs.isInline then
    (⟨rhs.handle, true⟩, ⟨none, rhs.isInline⟩, [])
  else
    (⟨rhs.handle, false⟩, ⟨none, rhs.isInline⟩, [])

/-!
## Accessor: `find_accessor_adapter` and the `accessor<K,T>` facade

Source: `src/polymorphic_collections/detail/accessor.hpp` (adapter) and the
`accessor<K,T>` facade in part_004 (guard
`POLYMORPHIC_COLLECTIONS_ACCESSOR_HPP`).  The adapter wraps a reference to a
map-like collection; `get` performs a `find` and returns a reference to the
mapped value (`it->second`) or an empty optional.  A mutation made through
that reference updates the mapped value of the found entry in place.
-/

/-- State of `find_accessor_adapter<T>` over a map-like collection: the
entries of the wrapped collection (keys unique in a `std::map`). -/
structure FindAccessorAdapter (κ α : Type) where
  collection : List (κ × α)
  deriving DecidableEq, Repr

/-- Embedding of `find_accessor_adapter::get(const key_type&)`:
`auto it = m_collection.find(key); if (it != m_collection.end()) return it->second; return boost::none;` -/
def FindAccessorAdapter.get [DecidableEq κ] (a : FindAccessorAdapter κ α)
    (k : κ) : Option α :=
  match a.collection.find? (fun p => decide (p.1 = k)) with
  | some p => some p.2
  | none => none

/-- Replacement of the mapped value of the first entry holding the key. -/
def setFirstValue [DecidableEq κ] : List (κ × α) → κ → α → List (κ × α)
  | [], _, _ => []
  | p :: ps, k, v => if p.1 = k then (p.1, v) :: ps else p :: setFirstValue ps k v

/-- Effect on the wrapped collection of assigning `v` through the reference
returned by `get k` (the reference is `it->second` of the entry `find`
located): the mapped value of that entry is replaced in place. -/
def FindAccessorAdapter.writeThrough [DecidableEq κ]
    (a : FindAccessorAdapter κ α) (k : κ) (v : α) : FindAccessorAdapter κ α :=
  ⟨setFirstValue a.collection k v⟩

/-- State of the `accessor<K,T>` facade under the default `no_lock` policy:
a possibly-null pointer to the active adapter. -/
structure AccessorFacade (σ : Type) where
  adapter : Option σ
  deriving DecidableEq, Repr

/-- Embedding of `accessor::get(const K&)` (part_004 lines 345-372) under
the default `no_lock` policy:
`if (!m_adapter) return boost::none; else if (lock()) { try { value = m_adapter->get(key); unlock(); return value; } catch (...) { unlock(); throw; } } else return boost::none;`
where `no_lock::lock()` always returns true and the adapter's `get` does not
modify the facade. -/
def accessorGet (doGet : σ → κ → Option α) (f : AccessorFacade σ) (k : κ) :
    Option α :=
  match f.adapter with
  | none => none
  | some a => doGet a k

/-!
## Functional enumerator adapter with cached probe (is_valid/next lineage)

Source: `functional_enumerator_adapter` in the `src/unnamed` enumerator
headers (part_002 lines 450-504, and equivalently part_001 lines 180-248).
The adapter wraps a zero-argument callable returning `boost::optional`;
`is_valid()` invokes the callable only when `m_hungry` and caches the result
in `m_next`; `next()` re-checks `is_valid()`, then marks the adapter hungry
again and hands out the cached value, throwing `std::out_of_range` when the
callable reported exhaustion.  The callable is modelled as the list of
values it will still produce (`none` forever once the list is empty), and
`calls` counts how many times the wrapped callable has been invoked — it is
the observable effect of `m_func()` on the outside world.
-/

/-- State of `functional_enumerator_adapter<F,T>` together with the wrapped
callable: `stream` is the list of values the callable will still return
(after which it returns an empty optional forever), `mNext` is the cached
`m_next`, `mHungry` is `m_hungry`, and `calls` counts invocations of
`m_func`. -/
structure FuncEnumAdapter (α : Type) where
  stream : List α
  mNext : Option α
  mHungry : Bool
  calls : Nat
  deriving DecidableEq, Repr

/-- Adapter as constructed from a callable that will return the given
values: `m_hungry` is initialised to true and `m_next` is empty. -/
def FuncEnumAdapter.ofStream (xs : List α) : FuncEnumAdapter α :=
  ⟨xs, none, true, 0⟩

/-- Embedding of `functional_enumerator_adapter::is_valid()`:
`if (m_hungry) { m_next = m_func(); m_hungry = false; } return m_next;`
(the members are `mutable`, so the `const` method really mutates them). -/
def FuncEnumAdapter.isValid (a : FuncEnumAdapter α) : Bool × FuncEnumAdapter α :=
  if a.mHungry then
    match a.stream with
    | [] => (false, ⟨[], none, false, a.calls + 1⟩)
    | x :: xs => (true, ⟨xs, some x, false, a.calls + 1⟩)
  else
    (a.mNext.isSome, a)

/-- Embedding of `functional_enumerator_adapter::next()`:
`if (!is_valid()) throw std::out_of_range("functional_enumerator_adapter::next()"); else { m_hungry = true; return m_next.get(); }` -/
def FuncEnumAdapter.next (a : FuncEnumAdapter α) :
    Except CppError α × FuncEnumAdapter α :=
  let (v, a1) := a.isValid
  match v, a1.mNext with
  | true, some x => (.ok x, { a1 with mHungry := true })
  | _, _ => (.error (.outOfRange "functional_enumerator_adapter::next()"), a1)

/-- State of the `enumerator<T>` facade of the is_valid/next lineage
(part_002 lines 102-234): a possibly-null adapter pointer. -/
structure EnumFacadeV (σ : Type) where
  adapter : Option σ
  deriving DecidableEq, Repr

/-- Embedding of that lineage's `enumerator::is_valid()`:
`return m_adapter && m_adapter->is_valid();` -/
def enumeratorIsValid (doValid : σ → Bool × σ) (f : EnumFacadeV σ) :
    Bool × EnumFacadeV σ :=
  match f.adapter with
  | none => (false, f)
  | some a =>
      let (v, a1) := doValid a
      (v, ⟨some a1⟩)

/-- Embedding of that lineage's `enumerator::next()`:
`if (!m_adapter) throw std::out_of_range("enumerator::next()"); else return m_adapter->next();` -/
def enumeratorNextV (doNext : σ → Except CppError α × σ) (f : EnumFacadeV σ) :
    Except CppError α × EnumFacadeV σ :=
  match f.adapter with
  | none => (.error (.outOfRange "enumerator::next()"), f)
  | some a =>
      let (r, a1) := doNext a
      (r, ⟨some a1⟩)

/-- Glue for chaining facade calls: outputs of `n` successive `next()` calls
on the is_valid/next-lineage facade. -/
def enumNextVTrace (doNext : σ → Except CppError α × σ) (n : Nat)
    (f : EnumFacadeV σ) : List (Except CppError α) :=
  match n with
  | 0 => []
  | n + 1 =>
      let (r, f1) := enumeratorNextV doNext f
      r :: enumNextVTrace doNext n f1

/-!
## Const-lvalue `add` overloads and the caller's argument object

Source: `accumulator::add(const T&)` (part_004 lines 128-141) and
`aggregator::add(const K&, const T&)` (aggregator.hpp lines 126-148).  Both
copy the argument into a local (`T new_value = value;`) and forward only the
copy by move (`m_adapter->add(std::move(new_value));`).  A C++ object is
modelled with its contents plus a moved-from flag; copy-construction reads
its source without modifying it, `std::move` + binding to `&&` marks the
moved-from object.  The embeddings return the caller's argument object as it
stands when control returns, on every path (unattached throw, adapter throw,
success). -/

/-- View of a C++ object of type `T` under move semantics: its current
contents and whether it has been moved from. -/
structure CppVal (α : Type) where
  val : α
  movedFrom : Bool
  deriving DecidableEq, Repr

/-- Embedding of `accumulator::add(const T&)` (part_004 lines 128-141) under
the default `no_lock` policy, tracking the caller's argument object; result
is `((outcome, facade after), the caller's argument object after)`.  On the
unattached path the throw happens before the copy is made; on the other
paths the copy `new_value` is created from the argument (leaving it
untouched) and only the copy is moved from. -/
def accumulatorAddConstRef (step : σ → CppVal α → Except CppError Unit × σ)
    (f : AccumFacade σ) (arg : CppVal α) :
    (Except CppError Unit × AccumFacade σ) × CppVal α :=
  match f.adapter with
  | none => ((.error (.overflowError "accumulator::add()"), f), arg)
  | some a =>
      let newValue : CppVal α := ⟨arg.val, false⟩
      let (r, a1) := step a newValue
      ((r, ⟨some a1⟩), arg)

/-- Embedding of `aggregator::add(const K&, const T&)` (aggregator.hpp lines
126-148) under the default `no_lock` policy, tracking both caller argument
objects; result is `((outcome, facade after), key object after, value object after)`.
`key_type new_key = key; value_type new_value = value;` are copies; only the
copies are moved from. -/
def aggregatorAddConstRef (step : σ → CppVal κ → CppVal α → Except CppError Unit × σ)
    (f : AccumFacade σ) (key : CppVal κ) (value : CppVal α) :
    (Except CppError Unit × AccumFacade σ) × CppVal κ × CppVal α :=
  match f.adapter with
  | none => ((.error (.overflowError "aggregator::add()"), f), key, value)
  | some a =>
      let newKey : CppVal κ := ⟨key.val, false⟩
      let newValue : CppVal α := ⟨value.val, false⟩
      let (r, a1) := step a newKey newValue
      ((r, ⟨some a1⟩), key, value)

/-!
# Theorems

Helper lemmas first, then one theorem per claim (with witnesses and the
counterexample required by the corrected claim).
-/

theorem iterEnumAdapter_trace (xs : List α) (k : Nat) :
    EnumFacade.nextTrace (xs.length + k) (EnumFacade.ofList xs) =
      xs.map some ++ List.replicate k none := by
  induction xs with
  | nil =>
      simp only [EnumFacade.ofList, List.length_nil, Nat.zero_add, List.map_nil,
        List.nil_append]
      induction k with
      | zero => rfl
      | succ n ih =>
          simpa [EnumFacade.nextTrace, EnumFacade.next, IterEnumAdapter.next,
            List.replicate_succ] using ih
  | cons x xs ih =>
      simpa [EnumFacade.nextTrace, EnumFacade.next, IterEnumAdapter.next,
        EnumFacade.ofList, Nat.succ_add] using ih

/-- Claim C1: for every finite sequence `S` wrapped by an enumerator facade,
repeated `next()` calls yield exactly the elements of `S` in source order,
each exactly once; the call after the last element reports exhaustion
(an empty optional), and every further call after exhaustion also reports
exhaustion: the outputs of `|S| + k` calls are `map some S` followed by `k`
empty results, for every `k` — in particular covering the first
post-exhaustion call and all later ones. -/
theorem enumerator_yields_source_then_exhaustion (α : Type) (S : List α) (k : Nat) :
    EnumFacade.nextTrace (S.length + k) (EnumFacade.ofList S) =
      S.map some ++ List.replicate k none :=
  iterEnumAdapter_trace S k

theorem list_set_append_length (pre : List α) (x v : α) (xs : List α) :
    (pre ++ x :: xs).set pre.length v = pre ++ v :: xs := by
  induction pre with
  | nil => rfl
  | cons p ps ih => simp [List.set, ih]

theorem iterAccum_addSeq (vs : List α) : ∀ (pre rest : List α),
    rest.length = vs.length →
    accumulatorAddSeq IterAccumAdapter.add ⟨some ⟨pre ++ rest, pre.length⟩⟩ vs
      = (true, ⟨some ⟨pre ++ vs, pre.length + vs.length⟩⟩) := by
  induction vs with
  | nil =>
      intro pre rest h
      have : rest = [] := List.eq_nil_of_length_eq_zero h
      subst this
      simp [accumulatorAddSeq]
  | cons v vs ih =>
      intro pre rest h
      match rest, h with
      | r :: rs, h =>
        have hlen : rs.length = vs.length := by
          simpa using h
        have hne : pre.length ≠ (pre ++ r :: rs).length := by
          rw [List.length_append, List.length_cons]
          omega
        have hset : (pre ++ r :: rs).set pre.length v = pre ++ v :: rs :=
          list_set_append_length pre r v rs
        have hstep :
            accumulatorAdd IterAccumAdapter.add ⟨some ⟨pre ++ r :: rs, pre.length⟩⟩ v
              = (.ok (), ⟨some ⟨pre ++ v :: rs, pre.length + 1⟩⟩) := by
          simp [accumulatorAdd, IterAccumAdapter.add, hne, hset]
        have hrec := ih (pre ++ [v]) rs (by simpa using hlen)
        have hrec2 : accumulatorAddSeq IterAccumAdapter.add
            ⟨some ⟨pre ++ v :: rs, pre.length + 1⟩⟩ vs
            = (true, ⟨some ⟨pre ++ v :: vs, pre.length + (vs.length + 1)⟩⟩) := by
          have h1 : pre ++ [v] ++ rs = pre ++ v :: rs := by simp
          have h2 : pre ++ [v] ++ vs = pre ++ v :: vs := by simp
          have h3 : (pre ++ [v]).length = pre.length + 1 := by simp
          have h4 : pre.length + 1 + vs.length = pre.length + (vs.length + 1) := by
            omega
          rw [h1, h2, h3, h4] at hrec
          exact hrec
        simp only [accumulatorAddSeq, hstep, hrec2, isOk, Bool.true_and,
          List.length_cons]

/-- Claim C2: for a fixed-capacity sink facade over a buffer `b` of capacity
`N = |b|` (iterator-range accumulator adapter starting at position 0),
feeding a sequence `vs` of exactly `N` values makes every `add` succeed and
leaves the buffer holding exactly `vs`; the `(N+1)`-th `add` then raises the
capacity-exceeded condition (`std::overflow_error` from
`iterator_accumulator_adapter::add()`) and leaves the facade state — in
particular the `N` elements already written — unchanged. -/
theorem accumulator_fixed_capacity (α : Type) (b vs : List α) (w : α)
    (h : vs.length = b.length) :
    accumulatorAddSeq IterAccumAdapter.add ⟨some ⟨b, 0⟩⟩ vs
      = (true, ⟨some ⟨vs, vs.length⟩⟩) ∧
    accumulatorAdd IterAccumAdapter.add ⟨some ⟨vs, vs.length⟩⟩ w
      = (.error (.overflowError "iterator_accumulator_adapter::add()"),
         ⟨some ⟨vs, vs.length⟩⟩) := by
  constructor
  · have := iterAccum_addSeq vs [] b (by omega)
    simpa using this
  · simp [accumulatorAdd, IterAccumAdapter.add]

/-- Witness for C2 at the spec's concrete scenario: a size-2 buffer, adds of
`5` and `6` succeed, the third add of `7` fails capacity-exceeded and the
sink still holds `[5, 6]`. -/
theorem accumulator_fixed_capacity_witness :
    ([5, 6] : List Nat).length = ([0, 0] : List Nat).length ∧
    (accumulatorAddSeq IterAccumAdapter.add ⟨some ⟨[0, 0], 0⟩⟩ [5, 6]
        = (true, ⟨some ⟨[5, 6], [5, 6].length⟩⟩) ∧
      accumulatorAdd IterAccumAdapter.add ⟨some ⟨[5, 6], [5, 6].length⟩⟩ 7
        = (.error (.overflowError "iterator_accumulator_adapter::add()"),
           ⟨some ⟨[5, 6], [5, 6].length⟩⟩)) :=
  ⟨rfl, accumulator_fixed_capacity Nat [0, 0] [5, 6] 7 rfl⟩

theorem pushBack_addSeq (S : List α) : ∀ (init : List α),
    accumulatorAddSeq PushBackAccumAdapter.add ⟨some ⟨init⟩⟩ S
      = (true, ⟨some ⟨init ++ S⟩⟩) := by
  induction S with
  | nil => intro init; simp [accumulatorAddSeq]
  | cons v vs ih =>
      intro init
      simp only [accumulatorAddSeq, accumulatorAdd, PushBackAccumAdapter.add]
      rw [ih (init ++ [v])]
      simp [isOk]

/-- Claim C3: for every finite sequence `S` of values passed one by one to
`add()` on an accumulator facade wrapping a growable (push_back-capable)
sink with initial contents `init`, every call succeeds and afterwards the
sink contains exactly `init ++ S`: the elements of `S` appended in their
original order (round-trip, order-preserving; the spec's statement is the
case `init = []`). -/
theorem accumulator_push_back_round_trip (α : Type) (init S : List α) :
    accumulatorAddSeq PushBackAccumAdapter.add ⟨some ⟨init⟩⟩ S
      = (true, ⟨some ⟨init ++ S⟩⟩) :=
  pushBack_addSeq S init

theorem enumFacadeM_trace_adapter (n : Nat) :
    ∀ (f g : EnumFacadeM α), f.adapter = g.adapter →
      f.nextTrace n = g.nextTrace n := by
  induction n with
  | zero => intro f g _; rfl
  | succ n ih =>
      intro f g h
      simp only [EnumFacadeM.nextTrace, EnumFacadeM.next, h]
      match hg : g.adapter with
      | none =>
          simp only []
          exact congrArg _ (ih f g h)
      | some a =>
          simp only []
          exact congrArg _ (ih ⟨some a.next.2, f.isInline⟩ ⟨some a.next.2, g.isInline⟩ rfl)

theorem enumFacadeM_none_trace (n : Nat) (b : Bool) :
    EnumFacadeM.nextTrace n (⟨none, b⟩ : EnumFacadeM α) = List.replicate n none := by
  induction n with
  | zero => rfl
  | succ n ih =>
      simpa [EnumFacadeM.nextTrace, EnumFacadeM.next, List.replicate_succ] using ih

/-- Claim C4: for every enumerator facade `f` in any state (any adapter
state, inline or heap storage), move-construction and move-assignment (into
any destination `g`) leave the source empty — every subsequent `next()` on
the moved-from facade reports the empty result, for any number `n` of calls
— and the destination behaves exactly as the source did before the move: it
produces the same remaining elements from the same position (equal `next()`
traces of every length). -/
theorem facade_move_invalidates_source_preserves_target
    (α : Type) (f g : EnumFacadeM α) (n : Nat) :
    (enumeratorMoveCtor f).2.nextTrace n = List.replicate n none ∧
    (enumeratorMoveCtor f).1.nextTrace n = f.nextTrace n ∧
    (enumeratorMoveAssign g f).2.nextTrace n = List.replicate n none ∧
    (enumeratorMoveAssign g f).1.nextTrace n = f.nextTrace n := by
  refine ⟨?_, ?_, ?_, ?_⟩ <;>
    simp only [enumeratorMoveCtor, enumeratorMoveAssign] <;>
    by_cases h : f.adapter.isSome && f.isInline <;>
      simp only [h, if_true, if_false, Bool.false_eq_true, ite_true, ite_false,
        enumFacadeM_none_trace] <;>
    exact enumFacadeM_trace_adapter n _ f rfl

/-- Claim C5 evaluated at its failing inputs (the code refutes the claim):
with an `atomic` locking policy attached, both error paths of
`accumulator::add` — the unattached-facade throw and an exception from the
forwarded adapter call (here capacity-exceeded on an empty buffer) — return
control to the caller with the mutex still held (`held = true`), because the
body has no try/catch and the `unlock()` after the forwarded call is
skipped.  The `aggregator::add` body, by contrast, releases the mutex on its
error path (`held = false`). -/
theorem accumulator_add_leaves_lock_held_on_error :
    accumulatorAddLocked IterAccumAdapter.add
        (⟨none, ⟨false⟩⟩ : LockedFacade (IterAccumAdapter Nat)) 0
      = (.error (.overflowError "accumulator::add()"), ⟨none, ⟨true⟩⟩) ∧
    accumulatorAddLocked IterAccumAdapter.add
        (⟨some ⟨[], 0⟩, ⟨false⟩⟩ : LockedFacade (IterAccumAdapter Nat)) 0
      = (.error (.overflowError "iterator_accumulator_adapter::add()"),
         ⟨some ⟨[], 0⟩, ⟨true⟩⟩) ∧
    aggregatorAddLocked InsertAggAdapter.add
        (⟨none, ⟨false⟩⟩ : LockedFacade (InsertAggAdapter Nat Nat)) 0 0
      = (.error (.overflowError "aggregator::add()"), ⟨none, ⟨false⟩⟩) := by
  refine ⟨rfl, ?_, rfl⟩
  simp [accumulatorAddLocked, IterAccumAdapter.add, LockState.lockAcquire]

/-- Counterexample to claim C6 as stated: the condition raised by `add` on a
default-constructed accumulator is `std::overflow_error` — not a
logic-error-class condition, and of the very same exception class as the
capacity-exceeded condition raised by a full fixed-capacity sink (the two
differ only in the `what()` message). -/
theorem unattached_add_error_class_counterexample :
    (accumulatorAdd IterAccumAdapter.add
        (⟨none⟩ : AccumFacade (IterAccumAdapter Nat)) 0).1
      = .error (.overflowError "accumulator::add()") ∧
    CppError.isLogicErrorClass (.overflowError "accumulator::add()") = false ∧
    CppError.sameClass (.overflowError "accumulator::add()")
      (.overflowError "iterator_accumulator_adapter::add()") = true :=
  ⟨rfl, rfl, rfl⟩

/-- Claim C6 as amended: calling `add` on a default-constructed,
never-assigned accumulator or aggregator fails with `std::overflow_error` —
the same exception class as the capacity-exceeded condition of a full
fixed-capacity sink, distinguishable from it only by the `what()` message —
while calling `next` on a default-constructed enumerator or `get` on a
default-constructed accessor is not an error and returns the ordinary empty
result. -/
theorem unattached_add_throws_next_get_empty (α : Type) (v : α) (k : Nat) :
    accumulatorAdd IterAccumAdapter.add
        (⟨none⟩ : AccumFacade (IterAccumAdapter α)) v
      = (.error (.overflowError "accumulator::add()"), ⟨none⟩) ∧
    aggregatorAdd InsertAggAdapter.add
        (⟨none⟩ : AccumFacade (InsertAggAdapter Nat α)) k v
      = (.error (.overflowError "aggregator::add()"), ⟨none⟩) ∧
    CppError.sameClass (.overflowError "accumulator::add()")
      (.overflowError "iterator_accumulator_adapter::add()") = true ∧
    CppError.sameClass (.overflowError "aggregator::add()")
      (.overflowError "iterator_accumulator_adapter::add()") = true ∧
    (CppError.overflowError "accumulator::add()").msg
      ≠ (CppError.overflowError "iterator_accumulator_adapter::add()").msg ∧
    EnumFacade.next (⟨none⟩ : EnumFacade α) = (none, ⟨none⟩) ∧
    accessorGet FindAccessorAdapter.get
      (⟨none⟩ : AccessorFacade (FindAccessorAdapter Nat α)) k = none := by
  refine ⟨rfl, rfl, rfl, rfl, ?_, rfl, rfl⟩
  decide

/-- Claim C7 evaluated at its failing input (the code refutes the claim for
the accessor): when each facade owns handle 0 and is move-assigned from a
facade owning handle 1, the enumerator, accumulator and aggregator
assignments destroy the previously owned handle 0 first, but the accessor's
`operator=(accessor&&)` destroys nothing: handle 0 is overwritten without
ever being disposed (leaked), so more than one handle stemming from that
facade stays alive. -/
theorem accessor_move_assign_skips_dispose :
    enumeratorMoveAssignH ⟨some 0, false⟩ ⟨some 1, false⟩
      = (⟨some 1, false⟩, ⟨none, false⟩, [0]) ∧
    accumulatorMoveAssignH ⟨some 0, false⟩ ⟨some 1, false⟩
      = (⟨some 1, false⟩, ⟨none, false⟩, [0]) ∧
    aggregatorMoveAssignH ⟨some 0, false⟩ ⟨some 1, false⟩
      = (⟨some 1, false⟩, ⟨none, false⟩, [0]) ∧
    accessorMoveAssignH ⟨some 0, false⟩ ⟨some 1, false⟩
      = (⟨some 1, false⟩, ⟨none, false⟩, []) :=
  ⟨rfl, rfl, rfl, rfl⟩

/-- Claim C8: for an accessor facade wrapping a map holding the entries
`{(a, x), (b, y)}` with pairwise-distinct keys `a`, `b` and an absent key
`c`, `get a` yields the mapped value `x` (a reference to it in the source);
a mutation made through that reference (replacing the mapped value by `v`)
is visible on a subsequent `get a`; `get c` yields empty, not an error; and
an unattached accessor also yields empty. -/
theorem accessor_get_lookup_mutation_absent
    (κ α : Type) [DecidableEq κ] (a b c : κ) (x y v : α)
    (_hab : a ≠ b) (hca : c ≠ a) (hcb : c ≠ b) :
    accessorGet FindAccessorAdapter.get
        (⟨some ⟨[(a, x), (b, y)]⟩⟩ : AccessorFacade (FindAccessorAdapter κ α)) a
      = some x ∧
    accessorGet FindAccessorAdapter.get
        ⟨some ((⟨[(a, x), (b, y)]⟩ : FindAccessorAdapter κ α).writeThrough a v)⟩ a
      = some v ∧
    accessorGet FindAccessorAdapter.get
        (⟨some ⟨[(a, x), (b, y)]⟩⟩ : AccessorFacade (FindAccessorAdapter κ α)) c
      = none ∧
    accessorGet FindAccessorAdapter.get
        (⟨none⟩ : AccessorFacade (FindAccessorAdapter κ α)) c = none := by
  have hac : a ≠ c := Ne.symm hca
  have hbc : b ≠ c := Ne.symm hcb
  refine ⟨?_, ?_, ?_, rfl⟩ <;>
    simp [accessorGet, FindAccessorAdapter.get, FindAccessorAdapter.writeThrough,
      setFirstValue, List.find?, hac, hbc]

/-- Witness for C8 at the concrete map `{(0, 1), (1, 2)}` over natural-number
keys, with absent key `2` and mutation value `42`. -/
theorem accessor_get_lookup_mutation_absent_witness :
    ((0 : Nat) ≠ 1 ∧ (2 : Nat) ≠ 0 ∧ (2 : Nat) ≠ 1) ∧
    (accessorGet FindAccessorAdapter.get
        (⟨some ⟨[(0, 1), (1, 2)]⟩⟩ : AccessorFacade (FindAccessorAdapter Nat Nat)) 0
      = some 1 ∧
    accessorGet FindAccessorAdapter.get
        ⟨some ((⟨[(0, 1), (1, 2)]⟩ : FindAccessorAdapter Nat Nat).writeThrough 0 42)⟩ 0
      = some 42 ∧
    accessorGet FindAccessorAdapter.get
        (⟨some ⟨[(0, 1), (1, 2)]⟩⟩ : AccessorFacade (FindAccessorAdapter Nat Nat)) 2
      = none ∧
    accessorGet FindAccessorAdapter.get
        (⟨none⟩ : AccessorFacade (FindAccessorAdapter Nat Nat)) 2 = none) :=
  ⟨⟨by decide, by decide, by decide⟩,
    accessor_get_lookup_mutation_absent Nat Nat 0 1 2 1 2 42
      (by decide) (by decide) (by decide)⟩

theorem funcIsValid_second_probe_id (a : FuncEnumAdapter α) :
    a.isValid.2.isValid = (a.isValid.1, a.isValid.2) := by
  rcases a with ⟨stream, mNext, mHungry, calls⟩
  cases mHungry <;> cases stream <;> simp [FuncEnumAdapter.isValid]

theorem funcNext_after_probe (a : FuncEnumAdapter α) :
    a.isValid.2.next = a.next := by
  have h := funcIsValid_second_probe_id a
  rcases hp : a.isValid with ⟨v, a1⟩
  rw [hp] at h
  simp only [FuncEnumAdapter.next, hp, h]

theorem funcIsValid_calls (a : FuncEnumAdapter α) :
    a.isValid.2.calls ≤ a.calls + 1 := by
  rcases a with ⟨stream, mNext, mHungry, calls⟩
  cases mHungry <;> cases stream <;> simp [FuncEnumAdapter.isValid]

/-- Claim C9: an enumerator wrapping a zero-argument callable that returns
the values 1, 2, 3 and then an empty result yields exactly `[1, 2, 3]` and
reports exhaustion on the fourth probe (`is_valid` false, `next` raising the
out-of-range condition); moreover, for every adapter state, calling
`is_valid` twice in a row without an intervening `next` returns the same
answer with the state left exactly as after the first probe (nothing
advanced past or skipped, and a following `next` behaves as if probed once),
and the two probes together invoke the callable at most once. -/
theorem functional_enumerator_trace_and_cached_probe
    (α : Type) (a : FuncEnumAdapter α) :
    (enumNextVTrace FuncEnumAdapter.next 4
        (⟨some (FuncEnumAdapter.ofStream [1, 2, 3])⟩ :
          EnumFacadeV (FuncEnumAdapter Nat))
      = [.ok 1, .ok 2, .ok 3,
         .error (.outOfRange "functional_enumerator_adapter::next()")] ∧
    (enumeratorIsValid FuncEnumAdapter.isValid
        (enumeratorNextV FuncEnumAdapter.next
          (enumeratorNextV FuncEnumAdapter.next
            (enumeratorNextV FuncEnumAdapter.next
              (⟨some (FuncEnumAdapter.ofStream [1, 2, 3])⟩ :
                EnumFacadeV (FuncEnumAdapter Nat))).2).2).2).1 = false) ∧
    a.isValid.2.isValid = (a.isValid.1, a.isValid.2) ∧
    a.isValid.2.next = a.next ∧
    a.isValid.2.isValid.2.calls ≤ a.calls + 1 := by
  refine ⟨⟨rfl, rfl⟩, funcIsValid_second_probe_id a, funcNext_after_probe a, ?_⟩
  rw [funcIsValid_second_probe_id a]
  exact funcIsValid_calls a

/-- Claim C10: the const-lvalue overloads of `add` copy the argument into a
local and forward only the copy by move, so the caller's argument object is
left unchanged by the call — on the unattached-facade path (which throws
before the copy is even made), on an adapter failure (only the local copy
was handed to the adapter) and on success — for every adapter behaviour,
facade state and argument object; for the aggregator, both the key and the
value argument objects are unchanged. -/
theorem const_lvalue_add_leaves_argument_unchanged
    (α κ σ : Type)
    (step : σ → CppVal α → Except CppError Unit × σ)
    (stepA : σ → CppVal κ → CppVal α → Except CppError Unit × σ)
    (f g : AccumFacade σ) (arg : CppVal α) (key : CppVal κ) (value : CppVal α) :
    (accumulatorAddConstRef step f arg).2 = arg ∧
    (aggregatorAddConstRef stepA g key value).2 = (key, value) := by
  refine ⟨?_, ?_⟩
  · rcases f with ⟨fa⟩
    cases fa <;> simp [accumulatorAddConstRef]
  · rcases g with ⟨ga⟩
    cases ga <;> simp [aggregatorAddConstRef]

end PolyColl
